import Mathlib

/-!
Shallow embedding of the full-stack-message-board repository.

The repository contains one browser client (src/frontend/src/App.jsx) and
four server variants:
  * src/unnamed/part_000 : in-memory store, numeric ids `messages.length + 1`;
  * src/unnamed/part_002 : in-memory store, string ids `Date.now().toString()`;
  * src/unnamed/part_001 : MongoDB store with a boolean `isConnected` flag and
    a default local URI;
  * src/backend/server.js : MongoDB store with a cached connection handle,
    graceful degradation and full validation.

Each handler is translated into a pure Lean function over an explicit state
(the message collection, the connection-cache state).  Request bodies are
modelled by a small JavaScript value type so that truthiness checks
(`if (!text)`) and `typeof` checks are faithful to the source.
-/

namespace MessageBoard

/-- Model of a JavaScript value as it can appear in a parsed JSON request
body field (the subset relevant to the handlers). -/
inductive JsValue where
  | undef
  | nullV
  | boolV (b : Bool)
  | numV (n : Int)
  | strV (s : String)
deriving DecidableEq, Repr

/-- JavaScript truthiness: `undefined`, `null`, `false`, `0` and the empty
string are falsy (mirrors the guard `if (!text)`). -/
def JsValue.falsy : JsValue → Bool
  | .undef => true
  | .nullV => true
  | .boolV b => !b
  | .numV n => n == 0
  | .strV s => s == ""

/-- Model of a JSON value as serialized on the wire by `res.json`. -/
inductive Json where
  | str (s : String)
  | num (n : Int)
  | boolJ (b : Bool)
  | nullJ
  | arr (xs : List Json)
  | obj (fields : List (String × Json))
deriving Repr

/-- Look a field up in a JSON object (first occurrence); `none` on
non-objects or missing fields. -/
def Json.lookup : Json → String → Option Json
  | .obj fields, k => (fields.find? (fun p => p.1 == k)).map Prod.snd
  | _, _ => none

/-- Whether a JSON value is a string. -/
def Json.isStr : Json → Bool
  | .str _ => true
  | _ => false

/-- Serialization of a JsValue stored unvalidated by the in-memory variants
(only these shapes are ever stored: whatever truthy value the client sent). -/
def JsValue.toJson : JsValue → Json
  | .undef => .nullJ
  | .nullV => .nullJ
  | .boolV b => .boolJ b
  | .numV n => .num n
  | .strV s => .str s

/-- Decimal value of a run of digit characters. -/
def digitsToNat (cs : List Char) : Nat :=
  cs.foldl (fun acc c => 10 * acc + (c.toNat - 48)) 0

/-- Model of JavaScript `String.prototype.trim`: strip leading and trailing
whitespace. -/
def jsTrim (s : String) : String :=
  ⟨((s.data.dropWhile Char.isWhitespace).reverse.dropWhile
      Char.isWhitespace).reverse⟩

/-- Model of JavaScript `parseInt(s)` in base 10: skip leading whitespace,
optional sign, then a run of decimal digits; `none` stands for `NaN`. -/
def jsParseInt (s : String) : Option Int :=
  let cs := s.data.dropWhile Char.isWhitespace
  let (neg, cs2) :=
    match cs with
    | c :: rest =>
      if c = Char.ofNat 45 then (true, rest)
      else if c = Char.ofNat 43 then (false, rest)
      else (false, cs)
    | [] => (false, cs)
  let digits := cs2.takeWhile Char.isDigit
  if digits.isEmpty then none
  else
    let v : Int := Int.ofNat (digitsToNat digits)
    some (if neg then -v else v)

/-! ## part_000 : in-memory store with `id: messages.length + 1` -/

/-- A message as stored by src/unnamed/part_000: numeric `id`, the request
`text` value stored as-is, and an ISO timestamp string. -/
structure Msg0 where
  id : Nat
  text : JsValue
  timestamp : String
deriving DecidableEq, Repr

/-- Wire shape of a part_000 message: `res.json` emits the object fields
`id` (number), `text`, `timestamp`. -/
def Msg0.toJson (m : Msg0) : Json :=
  .obj [("id", .num (Int.ofNat m.id)), ("text", m.text.toJson),
        ("timestamp", .str m.timestamp)]

/-- The seeded initial collection of part_000 (two sample messages created
at module load, before any request is handled). -/
def p0_init : List Msg0 :=
  [⟨1, .strV "Welcome to your first full-stack app!", "2024-01-01T00:00:00.000Z"⟩,
   ⟨2, .strV "This is powered by Express backend", "2024-01-01T00:00:00.000Z"⟩]

/-- GET /api/messages in part_000: always 200 with the whole array in
insertion order. -/
def p0_list (ms : List Msg0) : Nat × List Json :=
  (200, ms.map Msg0.toJson)

/-- Outcome of a POST in the in-memory variants, paired with the new store
state by the callers. -/
inductive PostRes (μ : Type) where
  | created (m : μ)
  | err (status : Nat)
deriving DecidableEq, Repr

/-- HTTP status of a POST outcome (201 on creation). -/
def PostRes.status {μ : Type} : PostRes μ → Nat
  | .created _ => 201
  | .err s => s

/-- POST /api/messages in part_000: reject falsy `text` with 400, otherwise
append `{ id: messages.length + 1, text, timestamp }`. -/
def p0_post (ms : List Msg0) (text : JsValue) (ts : String) :
    PostRes Msg0 × List Msg0 :=
  if text.falsy then (.err 400, ms)
  else
    let m : Msg0 := ⟨ms.length + 1, text, ts⟩
    (.created m, ms ++ [m])

/-- DELETE /api/messages/:id in part_000: `parseInt` the id, find the first
message with that numeric id, 404 if none (including `NaN`), else splice it
out.  Returns the status and the new collection. -/
def p0_delete (ms : List Msg0) (idStr : String) : Nat × List Msg0 :=
  match jsParseInt idStr with
  | none => (404, ms)
  | some n =>
    match ms.findIdx? (fun m => (Int.ofNat m.id) == n) with
    | none => (404, ms)
    | some i => (200, ms.eraseIdx i)

/-! ## part_002 : in-memory store with `_id: Date.now().toString()` -/

/-- A message as stored by src/unnamed/part_002: string `_id` derived from
the clock, the request `text` value stored as-is, ISO timestamp string. -/
structure Msg2 where
  mid : String
  text : JsValue
  timestamp : String
deriving DecidableEq, Repr

/-- Wire shape of a part_002 message: fields `_id` (string), `text`,
`timestamp`. -/
def Msg2.toJson (m : Msg2) : Json :=
  .obj [("_id", .str m.mid), ("text", m.text.toJson),
        ("timestamp", .str m.timestamp)]

/-- The seeded initial collection of part_002 (two sample messages). -/
def p2_init : List Msg2 :=
  [⟨"1", .strV "Welcome to your message board!", "2024-01-01T00:00:00.000Z"⟩,
   ⟨"2", .strV "This is powered by Express backend", "2024-01-01T00:00:00.000Z"⟩]

/-- GET /api/messages in part_002: always 200 with the whole array in
insertion order. -/
def p2_list (ms : List Msg2) : Nat × List Json :=
  (200, ms.map Msg2.toJson)

/-- POST /api/messages in part_002: reject falsy `text` with 400, otherwise
append `{ _id: Date.now().toString(), text, timestamp }`; `now` is the
millisecond clock reading at the request. -/
def p2_post (ms : List Msg2) (text : JsValue) (now : Nat) (ts : String) :
    PostRes Msg2 × List Msg2 :=
  if text.falsy then (.err 400, ms)
  else
    let m : Msg2 := ⟨toString now, text, ts⟩
    (.created m, ms ++ [m])

/-- DELETE /api/messages/:id in part_002: find the first message whose `_id`
equals the raw id string, 404 if none, else splice it out. -/
def p2_delete (ms : List Msg2) (idStr : String) : Nat × List Msg2 :=
  match ms.findIdx? (fun m => m.mid == idStr) with
  | none => (404, ms)
  | some i => (200, ms.eraseIdx i)

/-! ## server.js : MongoDB-backed store with cached connection

The database collection is modelled as a list of documents; the mongoose
connection machinery is reduced to two booleans that the handlers consult:
whether `MONGODB_URI` is configured and whether a connection attempt can
currently succeed (the store is reachable). -/

/-- A message document as stored by src/backend/server.js: MongoDB `_id`
hex string, schema-validated text, and timestamp (serialized as its ISO
string, which for a fixed-format ISO rendering is ordered exactly as the
underlying `Date`). -/
structure MsgDB where
  oid : String
  text : String
  timestamp : String
deriving DecidableEq, Repr

/-- Wire shape of a mongoose document: `_id` (string), `text`, `timestamp`
and the version key `__v` added by mongoose. -/
def MsgDB.toJson (m : MsgDB) : Json :=
  .obj [("_id", .str m.oid), ("text", .str m.text),
        ("timestamp", .str m.timestamp), ("__v", .num 0)]

/-- Connection-cache state of server.js: `cachedDb` is the cached handle
(`null` when absent), `readyState` is `mongoose.connection.readyState`
(1 = connected). -/
structure ConnSt where
  cachedDb : Option Nat
  readyState : Nat
deriving DecidableEq, Repr

/-- Result of a `connectDB()` call: a cached handle returned without a new
attempt, a freshly connected handle, or one of the two failure modes
(`Database configuration missing` thrown when `MONGODB_URI` is unset, and
the propagated driver error on a failed attempt). -/
inductive ConnRes where
  | cached (h : Nat)
  | connected (h : Nat)
  | configMissing
  | connectionFailed
deriving DecidableEq, Repr

/-- Model of `connectDB` in server.js.  `configured` is `!!MONGODB_URI`,
`canConnect` tells whether the connection attempt would succeed, and
`newHandle` is the handle a successful attempt would produce. -/
def connectDB (configured canConnect : Bool) (newHandle : Nat)
    (s : ConnSt) : ConnRes × ConnSt :=
  match s.cachedDb with
  | some h =>
    if s.readyState = 1 then (.cached h, s)
    else if !configured then (.configMissing, s)
    else if canConnect then (.connected newHandle, ⟨some newHandle, 1⟩)
    else (.connectionFailed, ⟨none, 0⟩)
  | none =>
    if !configured then (.configMissing, s)
    else if canConnect then (.connected newHandle, ⟨some newHandle, 1⟩)
    else (.connectionFailed, ⟨none, 0⟩)

/-- The `mongoose.connection.on('error', ...)` handler registered by
`connectDB`: sets `cachedDb = null` (the driver may keep the socket's
readyState). -/
def onErrorEvent (s : ConnSt) : ConnSt :=
  { s with cachedDb := none }

/-- The `mongoose.connection.on('disconnected', ...)` handler: the driver
drops readyState to 0 and the handler sets `cachedDb = null`. -/
def onDisconnectedEvent (_ : ConnSt) : ConnSt :=
  ⟨none, 0⟩

/-- Outcome of a list request. -/
inductive ListRes where
  | ok (msgs : List MsgDB)
  | err (status : Nat)
deriving DecidableEq, Repr

/-- HTTP status of a list outcome (200 on success). -/
def ListRes.status : ListRes → Nat
  | .ok _ => 200
  | .err s => s

/-- Lexicographic order on character lists; on fixed-format ISO-8601
strings this coincides with chronological order of the underlying dates,
so it models the `Date` comparison of `.sort({ timestamp: -1 })`. -/
def lexLeChars : List Char → List Char → Bool
  | [], _ => true
  | _ :: _, [] => false
  | a :: as, b :: bs =>
    if a < b then true
    else if b < a then false
    else lexLeChars as bs

/-- Timestamp comparison on the ISO strings stored in the model. -/
def tsLe (a b : String) : Bool := lexLeChars a.data b.data

/-- Descending-timestamp order used by `.sort({ timestamp: -1 })`. -/
def descByTs (a b : MsgDB) : Bool :=
  tsLe b.timestamp a.timestamp

/-- GET /api/messages in server.js: 503 if `MONGODB_URI` is unset; if the
connection cannot be established (the attempt fails with a Mongo-classed
driver error, or `readyState ≠ 1`) degrade to `200 []`; otherwise the
collection sorted by timestamp descending, limited to 100. -/
def srv_list (configured canConnect : Bool) (coll : List MsgDB) : ListRes :=
  if !configured then .err 503
  else if !canConnect then .ok []
  else .ok ((coll.mergeSort descByTs).take 100)

/-- GET /api/messages in part_001: `connectDB()` then the collection sorted
descending (no limit); any thrown error is answered with a 500.  part_001
always has a URI (it defaults to a local one), so `configured` does not
appear. -/
def p1_list (canConnect : Bool) (coll : List MsgDB) : ListRes :=
  if canConnect then .ok (coll.mergeSort descByTs)
  else .err 500

/-- Text validation of the server.js POST handler combined with the
mongoose schema: the handler rejects falsy / non-string / whitespace-only
text with 400, and `save()` raises a `ValidationError` (mapped to 400) when
the trimmed text exceeds the schema's `maxlength: 500`. -/
def srv_validText : JsValue → Bool
  | .strV s => !(jsTrim s == "") && (jsTrim s).length ≤ 500
  | _ => false

/-- POST /api/messages in server.js: 503 when unconfigured or unreachable;
400 when validation fails (handler check or schema `ValidationError`);
otherwise the document `{ text: text.trim(), timestamp }` is saved and
returned with 201. -/
def srv_post (configured canConnect : Bool) (text : JsValue)
    (coll : List MsgDB) (newOid ts : String) : PostRes MsgDB × List MsgDB :=
  if !configured then (.err 503, coll)
  else if !canConnect then (.err 503, coll)
  else
    match text with
    | .strV s =>
      if jsTrim s == "" then (.err 400, coll)
      else if (jsTrim s).length > 500 then (.err 400, coll)
      else
        let m : MsgDB := ⟨newOid, jsTrim s, ts⟩
        (.created m, coll ++ [m])
    | _ => (.err 400, coll)

/-- Whether a character is a hexadecimal digit. -/
def isHexChar (c : Char) : Bool :=
  c.isDigit || (Char.ofNat 97 ≤ c && c ≤ Char.ofNat 102) ||
    (Char.ofNat 65 ≤ c && c ≤ Char.ofNat 70)

/-- Model of `mongoose.Types.ObjectId.isValid` on a string argument: true
for a 24-character hex string or any 12-character string. -/
def isValidObjectId (s : String) : Bool :=
  s.length == 12 || (s.length == 24 && s.toList.all isHexChar)

/-- DELETE /api/messages/:id in server.js: 503 when unconfigured or
unreachable; 400 when the id fails `ObjectId.isValid`; 404 when
`findByIdAndDelete` matches nothing; otherwise the matched document is
removed and 200 returned. -/
def srv_delete (configured canConnect : Bool) (idStr : String)
    (coll : List MsgDB) : Nat × List MsgDB :=
  if !configured then (503, coll)
  else if !canConnect then (503, coll)
  else if !isValidObjectId idStr then (400, coll)
  else
    match coll.findIdx? (fun m => m.oid == idStr) with
    | none => (404, coll)
    | some i => (200, coll.eraseIdx i)

/-! ## Client state controller (src/frontend/src/App.jsx)

The React component state is four fields; each handler is a pure function
from the current state and the outcome of its network request to the next
state (the setters fire in program order within one handler). -/

/-- A message as held in the client's local list; the delete handler keys
on the `id` property. -/
structure ClientMsg where
  id : String
  text : String
  timestamp : String
deriving DecidableEq, Repr

/-- The component state of App.jsx: `messages`, the input draft
`newMessage`, `loading` and the dismissible `error` banner text. -/
structure ClientState where
  messages : List ClientMsg
  newMessage : String
  loading : Bool
  error : Option String
deriving DecidableEq, Repr

/-- Outcome of a network request as seen by a handler: `ok` with the parsed
response payload, or a thrown error message. -/
inductive ReqRes (ρ : Type) where
  | ok (data : ρ)
  | failed (e : String)
deriving DecidableEq, Repr

/-- fetchMessages: on success replace `messages` with the response and
clear `error`; on failure set `error`; `loading` ends false either way. -/
def fetchMessagesStep (s : ClientState) (r : ReqRes (List ClientMsg)) :
    ClientState :=
  match r with
  | .ok data => { s with messages := data, error := none, loading := false }
  | .failed e => { s with error := some e, loading := false }

/-- handleAddMessage: blank drafts are ignored before any request; on
success append the returned message and clear the draft; on failure set
`error` and leave `messages` and the draft alone. -/
def handleAddMessage (s : ClientState) (r : ReqRes ClientMsg) : ClientState :=
  if jsTrim s.newMessage == "" then s
  else
    match r with
    | .ok data => { s with messages := s.messages ++ [data], newMessage := "" }
    | .failed e => { s with error := some e }

/-- handleDeleteMessage: on success filter out entries whose `id` equals
the deleted id; on failure set `error` and leave `messages` alone. -/
def handleDeleteMessage (s : ClientState) (id : String)
    (r : ReqRes Unit) : ClientState :=
  match r with
  | .ok _ => { s with messages := s.messages.filter (fun m => m.id ≠ id) }
  | .failed e => { s with error := some e }

/-- The error-banner dismiss button: `setError(null)` only. -/
def dismissError (s : ClientState) : ClientState :=
  { s with error := none }

/-- The events that can update the client state, tagged with their request
outcomes. -/
inductive ClientEvent where
  | fetch (r : ReqRes (List ClientMsg))
  | add (r : ReqRes ClientMsg)
  | del (id : String) (r : ReqRes Unit)
  | dismiss
deriving Repr

/-- One step of the client state machine. -/
def clientStep (s : ClientState) : ClientEvent → ClientState
  | .fetch r => fetchMessagesStep s r
  | .add r => handleAddMessage s r
  | .del id r => handleDeleteMessage s id r
  | .dismiss => dismissError s

/-! ## Helper lemmas -/

/-- Totality of the lexicographic character order. -/
lemma lexLeChars_total (as : List Char) :
    ∀ bs, lexLeChars as bs || lexLeChars bs as := by
  induction as with
  | nil => intro bs; cases bs <;> simp [lexLeChars]
  | cons a as ih =>
    intro bs
    cases bs with
    | nil => simp [lexLeChars]
    | cons b bs =>
      simp only [lexLeChars]
      by_cases h1 : a < b
      · simp [h1]
      · by_cases h2 : b < a
        · simp [h1, h2]
        · simpa [h1, h2] using ih bs

/-- Transitivity of the lexicographic character order. -/
lemma lexLeChars_trans (as : List Char) :
    ∀ bs cs, lexLeChars as bs → lexLeChars bs cs → lexLeChars as cs := by
  induction as with
  | nil => intro bs cs _ _; rfl
  | cons a as ih =>
    intro bs cs hab hbc
    cases bs with
    | nil => simp [lexLeChars] at hab
    | cons b bs =>
      cases cs with
      | nil => simp [lexLeChars] at hbc
      | cons c cs =>
        simp only [lexLeChars] at hab hbc ⊢
        by_cases h1 : a < b <;> by_cases h2 : b < c
        · simp [lt_trans h1 h2]
        · simp only [h2, if_false] at hbc
          by_cases h3 : c < b
          · simp [h3] at hbc
          · have hbc' : b = c := le_antisymm (not_lt.mp h3) (not_lt.mp h2)
            subst hbc'
            simp [h1]
        · simp only [h1, if_false] at hab
          by_cases h3 : b < a
          · simp [h3] at hab
          · have hab' : a = b := le_antisymm (not_lt.mp h3) (not_lt.mp h1)
            subst hab'
            simp [h2]
        · simp only [h1, if_false] at hab
          simp only [h2, if_false] at hbc
          by_cases h3 : b < a
          · simp [h3] at hab
          · by_cases h4 : c < b
            · simp [h4] at hbc
            · have e1 : a = b := le_antisymm (not_lt.mp h3) (not_lt.mp h1)
              have e2 : b = c := le_antisymm (not_lt.mp h4) (not_lt.mp h2)
              subst e1; subst e2
              simp only [lt_irrefl, if_false]
              simp only [Bool.if_false_left] at hab hbc
              exact ih bs cs (by simpa using hab) (by simpa using hbc)

/-- Transitivity of the descending-timestamp order on documents. -/
lemma descByTs_trans : ∀ a b c : MsgDB, descByTs a b → descByTs b c →
    descByTs a c := by
  intro a b c hab hbc
  exact lexLeChars_trans _ _ _ hbc hab

/-- Totality of the descending-timestamp order on documents. -/
lemma descByTs_total : ∀ a b : MsgDB, descByTs a b || descByTs b a := by
  intro a b
  exact lexLeChars_total b.timestamp.data a.timestamp.data

/-- Removing the element found by `findIdx?` removes exactly the matching
entries when the document ids are pairwise distinct. -/
lemma eraseIdx_findIdx?_eq_filter (idStr : String) :
    ∀ (l : List MsgDB), (l.map MsgDB.oid).Nodup →
      ∀ i, l.findIdx? (fun m => m.oid == idStr) = some i →
        l.eraseIdx i = l.filter (fun m => m.oid ≠ idStr) := by
  intro l
  induction l with
  | nil => intro _ i h; simp at h
  | cons x xs ih =>
    intro hnd i hfind
    simp only [List.map_cons, List.nodup_cons] at hnd
    by_cases hx : x.oid == idStr
    · have hx' : x.oid = idStr := by simpa using hx
      have hi : i = 0 := by
        simp [List.findIdx?_cons, hx] at hfind
        omega
      subst hi
      have hnot : ∀ m ∈ xs, m.oid ≠ idStr := by
        intro m hm he
        exact hnd.1 (by
          rw [hx', ← he]
          exact List.mem_map_of_mem MsgDB.oid hm)
      rw [List.eraseIdx_cons_zero, List.filter_cons,
        if_neg (by simp [hx'])]
      symm
      rw [List.filter_eq_self]
      intro a ha
      simpa using hnot a ha
    · have hfind' : ∃ j, xs.findIdx? (fun m => m.oid == idStr) = some j ∧
          i = j + 1 := by
        simp only [List.findIdx?_cons, hx, if_false, List.findIdx?_succ] at hfind
        rcases Option.map_eq_some'.mp hfind with ⟨j, hj, hij⟩
        exact ⟨j, hj, hij.symm⟩
      rcases hfind' with ⟨j, hj, hij⟩
      subst hij
      have hxne : x.oid ≠ idStr := by simpa using hx
      rw [List.eraseIdx_cons_succ, List.filter_cons,
        if_pos (by simp [hxne])]
      rw [ih hnd.2 j hj]

/-! ## Claims -/

/-- C1 (code_bug): the part_000 variant computes a fresh id as
`messages.length + 1`, so after deleting message id 1 from the seeded store
(leaving `[id 2]`, length 1) a create assigns id `1 + 1 = 2` again: the
stored ids become `[2, 2]`, refuting the claimed pairwise distinctness of
ids across create/delete sequences. -/
theorem C1_duplicate_id_after_delete :
    ((p0_post (p0_delete p0_init "1").2 (.strV "Hello again")
        "2024-01-02T00:00:00.000Z").2).map Msg0.id = [2, 2] ∧
    ¬ (((p0_post (p0_delete p0_init "1").2 (.strV "Hello again")
        "2024-01-02T00:00:00.000Z").2).map Msg0.id).Nodup :=
  ⟨rfl, by decide⟩

/-- C2 counterexample: the 201 body of a part_000 create names its
identifier field `id` and stores a JSON number there (id 3 for the third
message), not a string, refuting the claimed wire shape
`{ id: string, ... }`. -/
theorem C2_counterexample :
    (p0_post p0_init (.strV "hello") "2024-01-02T00:00:00.000Z").1 =
      .created ⟨3, .strV "hello", "2024-01-02T00:00:00.000Z"⟩ ∧
    ((Msg0.toJson ⟨3, .strV "hello", "2024-01-02T00:00:00.000Z"⟩).lookup
        "id").map Json.isStr = some false :=
  ⟨rfl, rfl⟩

/-- C2 (corrected): the wire shape of messages per variant.  part_000
serializes a numeric `id` field; server.js and part_002 serialize the
identifier as a string under the key `_id` and have no `id` field at all;
`timestamp` is serialized as a string in every variant, and list responses
serialize the stored messages elementwise. -/
theorem C2_wire_shape :
    (∀ m : Msg0, m.toJson.lookup "id" = some (.num (Int.ofNat m.id)) ∧
      (m.toJson.lookup "id").map Json.isStr = some false ∧
      m.toJson.lookup "timestamp" = some (.str m.timestamp)) ∧
    (∀ m : MsgDB, m.toJson.lookup "_id" = some (.str m.oid) ∧
      m.toJson.lookup "id" = none ∧
      m.toJson.lookup "text" = some (.str m.text) ∧
      m.toJson.lookup "timestamp" = some (.str m.timestamp)) ∧
    (∀ m : Msg2, m.toJson.lookup "_id" = some (.str m.mid) ∧
      m.toJson.lookup "id" = none ∧
      m.toJson.lookup "timestamp" = some (.str m.timestamp)) ∧
    (∀ ms : List Msg0, (p0_list ms).2 = ms.map Msg0.toJson) ∧
    (∀ ms : List Msg2, (p2_list ms).2 = ms.map Msg2.toJson) :=
  ⟨fun _ => ⟨rfl, rfl, rfl⟩, fun _ => ⟨rfl, rfl, rfl, rfl⟩,
   fun _ => ⟨rfl, rfl, rfl⟩, fun _ => rfl, fun _ => rfl⟩

/-- C3 counterexample: in part_001 configuration is always present (a local
URI is the default), yet when the connection cannot be established the list
handler answers 500 — a 5xx caused solely by the store being unreachable —
instead of the claimed `200 []`. -/
theorem C3_counterexample :
    (p1_list false []).status = 500 ∧ (p1_list false []).status ≠ 200 :=
  ⟨rfl, by decide⟩

/-- C3 (corrected): in server.js the list read returns 503 when the store
is unconfigured and degrades to `200 []` (never a 5xx) when it is
configured but unreachable; the part_001 variant instead answers 500 when
the store is unreachable. -/
theorem C3_list_degradation :
    (∀ (canConnect : Bool) (coll : List MsgDB),
      srv_list false canConnect coll = .err 503) ∧
    (∀ coll : List MsgDB, srv_list true false coll = .ok []) ∧
    (∀ coll : List MsgDB, (srv_list true false coll).status = 200) ∧
    (∀ coll : List MsgDB, p1_list false coll = .err 500) :=
  ⟨fun _ _ => rfl, fun _ => rfl, fun _ => rfl, fun _ => rfl⟩

/-- C4 (confirmed): `connectDB` is idempotent — a cached handle with
`readyState = 1` is returned unchanged with no new attempt; with no
configuration and an empty cache it fails with the configuration-missing
error and the cache stays empty; a failed attempt clears the cached handle
before the error propagates; a successful attempt caches the handle, the
error/disconnected event handlers invalidate the cache, and the next call
re-establishes a fresh connection. -/
theorem C4_connectDB_lifecycle (configured canConnect : Bool)
    (newHandle : Nat) (s : ConnSt) :
    (∀ h, s.cachedDb = some h → s.readyState = 1 →
      connectDB configured canConnect newHandle s = (.cached h, s)) ∧
    (s.cachedDb = none → configured = false →
      connectDB configured canConnect newHandle s = (.configMissing, s)) ∧
    (s.cachedDb = none ∨ s.readyState ≠ 1 →
      connectDB true false newHandle s = (.connectionFailed, ⟨none, 0⟩)) ∧
    (s.cachedDb = none ∨ s.readyState ≠ 1 →
      connectDB true true newHandle s = (.connected newHandle, ⟨some newHandle, 1⟩)) ∧
    ((onErrorEvent ⟨some newHandle, 1⟩).cachedDb = none) ∧
    ((onDisconnectedEvent ⟨some newHandle, 1⟩).cachedDb = none) ∧
    (∀ h2, (connectDB true true h2 (onErrorEvent ⟨some newHandle, 1⟩)).1 =
        .connected h2 ∧
      (connectDB true true h2 (onDisconnectedEvent ⟨some newHandle, 1⟩)).1 =
        .connected h2) := by
  obtain ⟨cd, rs⟩ := s
  refine ⟨?_, ?_, ?_, ?_, rfl, rfl, fun h2 => ⟨rfl, rfl⟩⟩
  · intro h hcd hrs
    simp only at hcd hrs
    subst hcd; subst hrs
    rfl
  · intro hcd hcfg
    simp only at hcd
    subst hcd; subst hcfg
    rfl
  · intro hor
    rcases hor with hcd | hrs
    · simp only at hcd; subst hcd; rfl
    · simp only at hrs
      cases cd with
      | none => rfl
      | some h => simp [connectDB, hrs]
  · intro hor
    rcases hor with hcd | hrs
    · simp only at hcd; subst hcd; rfl
    · simp only at hrs
      cases cd with
      | none => rfl
      | some h => simp [connectDB, hrs]

/-- C4 witness: from an empty cache with configuration present and the
store reachable, `connectDB` establishes and caches handle 7. -/
theorem C4_connectDB_lifecycle_witness :
    connectDB true true 7 ⟨none, 0⟩ = (.connected 7, ⟨some 7, 1⟩) :=
  (C4_connectDB_lifecycle true true 7 ⟨none, 0⟩).2.2.2.1 (Or.inl rfl)

/-- C5 counterexample: in part_000 a reachable state — the seeded store
after one create with a later timestamp — is listed successfully (200) in
insertion order, which is not descending by timestamp: the first element's
timestamp is strictly older than the last's. -/
theorem C5_counterexample :
    (p0_list ((p0_post p0_init (.strV "One more")
        "2024-01-02T00:00:00.000Z").2)).1 = 200 ∧
    ¬ (((p0_post p0_init (.strV "One more")
        "2024-01-02T00:00:00.000Z").2).map Msg0.timestamp).Pairwise
      (fun a b => tsLe b a) :=
  ⟨rfl, by decide⟩

/-- C5 (corrected): every sequence successfully returned by the server.js
list handler is sorted by timestamp descending and has at most 100
elements; the part_000 in-memory variant instead returns the whole stored
list in insertion order. -/
theorem C5_list_sorted_and_capped :
    (∀ (configured canConnect : Bool) (coll out : List MsgDB),
      srv_list configured canConnect coll = .ok out →
        out.Pairwise (fun a b => tsLe b.timestamp a.timestamp) ∧
        out.length ≤ 100) ∧
    (∀ ms : List Msg0, p0_list ms = (200, ms.map Msg0.toJson)) := by
  refine ⟨?_, fun _ => rfl⟩
  intro configured canConnect coll out h
  unfold srv_list at h
  split at h
  · exact absurd h (by simp)
  · split at h
    · cases h
      exact ⟨List.Pairwise.nil, by simp⟩
    · cases h
      constructor
      · have hs := List.sorted_mergeSort descByTs_trans descByTs_total coll
        have hp := hs.sublist (List.take_sublist 100 _)
        exact hp.imp (fun hab => by simpa [descByTs] using hab)
      · exact List.length_take_le 100 _

/-- C5 witness: the degraded successful read returns the empty sequence,
which is sorted and within the cap. -/
theorem C5_list_sorted_and_capped_witness :
    List.Pairwise (fun a b : MsgDB => tsLe b.timestamp a.timestamp)
      ([] : List MsgDB) ∧ ([] : List MsgDB).length ≤ 100 :=
  C5_list_sorted_and_capped.1 true false [] [] rfl

/-- C6 counterexample: in part_002 (in-memory, so configured and reachable)
a whitespace-only `text` is truthy, hence accepted: the response status is
201 and the stored collection grows by one, where the claim demands a 400
and an unchanged collection. -/
theorem C6_counterexample :
    (p2_post p2_init (.strV " ") 1700000000000
        "2024-01-02T00:00:00.000Z").1.status = 201 ∧
    ((p2_post p2_init (.strV " ") 1700000000000
        "2024-01-02T00:00:00.000Z").2).length = p2_init.length + 1 :=
  ⟨rfl, rfl⟩

/-- C6 (corrected): with the store configured and reachable, the server.js
create handler fails with 400 exactly when `text` is not a string whose
trimmed form is non-empty and at most 500 characters, and a 400 leaves the
collection unchanged; the part_002 variant instead rejects (with 400 and an
unchanged collection) exactly the falsy `text` values, accepting
whitespace-only and over-long strings. -/
theorem C6_post_validation :
    (∀ (text : JsValue) (coll : List MsgDB) (oid ts : String),
      ((srv_post true true text coll oid ts).1 = .err 400 ↔
        ¬ ∃ s, text = .strV s ∧ jsTrim s ≠ "" ∧ (jsTrim s).length ≤ 500) ∧
      ((srv_post true true text coll oid ts).1 = .err 400 →
        (srv_post true true text coll oid ts).2 = coll)) ∧
    (∀ (ms : List Msg2) (text : JsValue) (now : Nat) (ts : String),
      ((p2_post ms text now ts).1 = .err 400 ↔ text.falsy = true) ∧
      ((p2_post ms text now ts).1 = .err 400 →
        (p2_post ms text now ts).2 = ms)) := by
  constructor
  · intro text coll oid ts
    cases text with
    | strV s =>
      by_cases h1 : jsTrim s = ""
      · refine ⟨⟨fun _ => ?_, fun _ => by simp [srv_post, h1]⟩,
          fun _ => by simp [srv_post, h1]⟩
        rintro ⟨s', heq, hne, hlen⟩
        cases heq
        exact hne h1
      · by_cases h2 : (jsTrim s).length ≤ 500
        · have h2' : ¬ (jsTrim s).length > 500 := by omega
          refine ⟨⟨fun habs => ?_, fun habs => ?_⟩, fun habs => ?_⟩
          · simp [srv_post, h1, h2'] at habs
          · exact absurd ⟨s, rfl, h1, h2⟩ habs
          · simp [srv_post, h1, h2'] at habs
        · have h2' : (jsTrim s).length > 500 := by omega
          refine ⟨⟨fun _ => ?_, fun _ => by simp [srv_post, h1, h2']⟩,
            fun _ => by simp [srv_post, h1, h2']⟩
          rintro ⟨s', heq, hne, hlen⟩
          cases heq
          exact h2 hlen
    | undef =>
      exact ⟨⟨fun _ => by rintro ⟨s', heq, _, _⟩; simp at heq,
        fun _ => rfl⟩, fun _ => rfl⟩
    | nullV =>
      exact ⟨⟨fun _ => by rintro ⟨s', heq, _, _⟩; simp at heq,
        fun _ => rfl⟩, fun _ => rfl⟩
    | boolV b =>
      exact ⟨⟨fun _ => by rintro ⟨s', heq, _, _⟩; simp at heq,
        fun _ => rfl⟩, fun _ => rfl⟩
    | numV n =>
      exact ⟨⟨fun _ => by rintro ⟨s', heq, _, _⟩; simp at heq,
        fun _ => rfl⟩, fun _ => rfl⟩
  · intro ms text now ts
    refine ⟨⟨?_, ?_⟩, ?_⟩
    · intro h
      by_contra hf
      have hf' : text.falsy = false := by
        revert hf; cases text.falsy <;> simp
      simp [p2_post, hf'] at h
    · intro hf
      simp [p2_post, hf]
    · intro h
      by_cases hf : text.falsy = true
      · simp [p2_post, hf]
      · have hf' : text.falsy = false := by
          revert hf; cases text.falsy <;> simp
        simp [p2_post, hf'] at h

/-- C6 witness: whitespace-only text is rejected by server.js and the
collection stays empty. -/
theorem C6_post_validation_witness :
    (srv_post true true (.strV " ") [] "cafecafecafecafecafecafe"
      "2024-01-02T00:00:00.000Z").2 = ([] : List MsgDB) :=
  (C6_post_validation.1 (.strV " ") [] "cafecafecafecafecafecafe"
    "2024-01-02T00:00:00.000Z").2 rfl

/-- C7 counterexample: in part_000 the id "abc" is not well-formed for the
numeric identifier scheme (`parseInt` yields NaN), yet the delete handler
answers 404 — there is no 400 path for malformed ids — leaving the
collection unchanged. -/
theorem C7_counterexample :
    jsParseInt "abc" = none ∧ p0_delete p0_init "abc" = (404, p0_init) :=
  ⟨rfl, rfl⟩

/-- C7 (corrected): with the store configured and reachable, the server.js
delete handler answers 400 on an id rejected by `ObjectId.isValid`, 404
when no document carries the id; both leave the collection unchanged; on
success it removes exactly the one document with that id (for a collection
with pairwise-distinct ids).  The part_000 variant lacks the 400 path. -/
theorem C7_delete_validation :
    (∀ (idStr : String) (coll : List MsgDB), isValidObjectId idStr = false →
      srv_delete true true idStr coll = (400, coll)) ∧
    (∀ (idStr : String) (coll : List MsgDB), isValidObjectId idStr = true →
      (∀ m ∈ coll, m.oid ≠ idStr) →
      srv_delete true true idStr coll = (404, coll)) ∧
    (∀ (idStr : String) (coll : List MsgDB), isValidObjectId idStr = true →
      (coll.map MsgDB.oid).Nodup → (∃ m ∈ coll, m.oid = idStr) →
        (srv_delete true true idStr coll).1 = 200 ∧
        (srv_delete true true idStr coll).2 =
          coll.filter (fun m => m.oid ≠ idStr) ∧
        ((srv_delete true true idStr coll).2).length + 1 = coll.length) := by
  refine ⟨?_, ?_, ?_⟩
  · intro idStr coll h
    simp [srv_delete, h]
  · intro idStr coll hv hnone
    have hfind : coll.findIdx? (fun m => m.oid == idStr) = none :=
      List.findIdx?_eq_none_iff.mpr (fun m hm => by simpa using hnone m hm)
    simp [srv_delete, hv, hfind]
  · intro idStr coll hv hnd hex
    have hex' : ∃ m, m ∈ coll ∧ (fun m : MsgDB => m.oid == idStr) m := by
      rcases hex with ⟨m, hm, he⟩
      exact ⟨m, hm, by simpa using he⟩
    have hfind := List.findIdx?_eq_some_of_exists hex'
    have hlt : coll.findIdx (fun m => m.oid == idStr) < coll.length :=
      (List.findIdx?_eq_some_iff_findIdx_eq.mp hfind).1
    have hres : srv_delete true true idStr coll =
        (200, coll.eraseIdx (coll.findIdx (fun m => m.oid == idStr))) := by
      simp [srv_delete, hv, hfind]
    rw [hres]
    refine ⟨rfl, ?_, ?_⟩
    · exact eraseIdx_findIdx?_eq_filter idStr coll hnd _ hfind
    · have := List.length_eraseIdx_of_lt hlt
      simp only [this]
      omega

/-- C7 witness: deleting the unique document with a well-formed 12-byte id
succeeds, removes exactly that document, and shrinks the collection by
one. -/
theorem C7_delete_validation_witness :
    (srv_delete true true "aaaaaaaaaaaa"
      [⟨"aaaaaaaaaaaa", "hello", "t"⟩]).1 = 200 ∧
    (srv_delete true true "aaaaaaaaaaaa"
      [⟨"aaaaaaaaaaaa", "hello", "t"⟩]).2 =
      [(⟨"aaaaaaaaaaaa", "hello", "t"⟩ : MsgDB)].filter
        (fun m => m.oid ≠ "aaaaaaaaaaaa") ∧
    ((srv_delete true true "aaaaaaaaaaaa"
      [⟨"aaaaaaaaaaaa", "hello", "t"⟩]).2).length + 1 =
      ([(⟨"aaaaaaaaaaaa", "hello", "t"⟩ : MsgDB)] : List MsgDB).length :=
  C7_delete_validation.2.2 "aaaaaaaaaaaa" [⟨"aaaaaaaaaaaa", "hello", "t"⟩]
    (by decide) (by decide)
    ⟨⟨"aaaaaaaaaaaa", "hello", "t"⟩, List.mem_singleton_self _, rfl⟩

/-- C8 counterexample: part_000's store, before any create request is
handled, already holds two seeded sample messages, so listing it returns a
two-element (non-empty) sequence, refuting the claimed empty listing. -/
theorem C8_counterexample :
    (p0_list p0_init).1 = 200 ∧ ((p0_list p0_init).2).length = 2 ∧
    ((p0_list p0_init).2).length ≠ 0 :=
  ⟨rfl, rfl, by decide⟩

/-- C8 (corrected): listing a store instance on which no create request was
ever handled returns status 200 with the two seeded sample messages in the
in-memory variants (an empty sequence only if the seeds were deleted), and
503 when the database-backed server.js store is entirely unconfigured. -/
theorem C8_fresh_store_listing :
    (p0_list p0_init).1 = 200 ∧
    (p0_list p0_init).2 = p0_init.map Msg0.toJson ∧
    ((p0_list p0_init).2).length = 2 ∧
    (p2_list p2_init).1 = 200 ∧
    ((p2_list p2_init).2).length = 2 ∧
    (∀ (canConnect : Bool) (coll : List MsgDB),
      srv_list false canConnect coll = .err 503) :=
  ⟨rfl, rfl, rfl, rfl, rfl, fun _ _ => rfl⟩

/-- C9 (confirmed): the client's delete handler performs no optimistic
removal — on a failed request `messages` is exactly as before and `error`
is set; on a successful response exactly the entries whose `id` equals the
deleted id are filtered out, and `error` is untouched. -/
theorem C9_delete_no_optimistic_removal :
    (∀ (s : ClientState) (id e : String),
      (handleDeleteMessage s id (.failed e)).messages = s.messages ∧
      (handleDeleteMessage s id (.failed e)).error = some e) ∧
    (∀ (s : ClientState) (id : String),
      (handleDeleteMessage s id (.ok ())).messages =
        s.messages.filter (fun m => m.id ≠ id) ∧
      (handleDeleteMessage s id (.ok ())).error = s.error) :=
  ⟨fun _ _ _ => ⟨rfl, rfl⟩, fun _ _ => ⟨rfl, rfl⟩⟩

/-- C10 (confirmed): a successful create and a successful delete leave the
client's `error` state unchanged, and the only events that can turn a
non-null `error` into null are the success path of the list fetch and the
banner dismiss button. -/
theorem C10_error_persistence :
    (∀ (s : ClientState) (data : ClientMsg),
      (clientStep s (.add (.ok data))).error = s.error) ∧
    (∀ (s : ClientState) (id : String),
      (clientStep s (.del id (.ok ()))).error = s.error) ∧
    (∀ (s : ClientState) (e : ClientEvent), s.error ≠ none →
      (clientStep s e).error = none →
      (∃ data, e = .fetch (.ok data)) ∨ e = .dismiss) := by
  refine ⟨?_, fun s id => rfl, ?_⟩
  · intro s data
    simp only [clientStep, handleAddMessage]
    split
    · rfl
    · rfl
  · intro s e hne hnone
    cases e with
    | fetch r =>
      cases r with
      | ok data => exact Or.inl ⟨data, rfl⟩
      | failed e => simp [clientStep, fetchMessagesStep] at hnone
    | add r =>
      cases r with
      | ok data =>
        simp only [clientStep, handleAddMessage] at hnone
        split at hnone
        · exact absurd hnone hne
        · exact absurd hnone hne
      | failed e =>
        simp only [clientStep, handleAddMessage] at hnone
        split at hnone
        · exact absurd hnone hne
        · simp at hnone
    | del id r =>
      cases r with
      | ok _ => exact absurd hnone hne
      | failed e => simp [clientStep, handleDeleteMessage] at hnone
    | dismiss => exact Or.inr rfl

/-- C10 witness: with an error banner showing, a successful create keeps
the banner, and the dismiss event is one of the two permitted clearers. -/
theorem C10_error_persistence_witness :
    (clientStep ⟨[], "hi", false, some "boom"⟩
      (.add (.ok ⟨"1", "x", "t"⟩))).error = some "boom" ∧
    ((∃ data, (ClientEvent.dismiss : ClientEvent) = .fetch (.ok data)) ∨
      (ClientEvent.dismiss : ClientEvent) = .dismiss) :=
  ⟨C10_error_persistence.1 ⟨[], "hi", false, some "boom"⟩ ⟨"1", "x", "t"⟩,
   C10_error_persistence.2.2 ⟨[], "hi", false, some "boom"⟩ .dismiss
     (by simp) (by rfl)⟩

end MessageBoard
